import Mathlib

set_option maxRecDepth 20000

/- Shallow embedding of the telegram finance bot in src/main.py.

   Message text is modeled as a list of characters (ASCII input assumed), the
   spreadsheet as its raw cell table: a list of rows of cell strings, the first
   row being the header (this is exactly what sheet.get_all_values returns, and
   what sheet.clear() + sheet.update(rows) writes back).  Cells are kept as
   strings; the integer amount appended by the save branch is stored as its
   decimal digit string, which is the raw-cell view of that value.  Outbound
   send_message calls are collected as an inductive Msg datatype (one
   constructor per distinct reply of the source) instead of rendered text, and
   datetime.now() is passed in as two parameters: the current date string
   (already strftime d-m-Y formatted) and the current timestamp string. -/

abbrev Str := List Char

abbrev Table := List (List Str)

/-- ASCII model of Python str whitespace (space, tab, newline, CR, VT, FF). -/
def isSpaceC (c : Char) : Bool :=
  decide (c.toNat = 32 ∨ c.toNat = 9 ∨ c.toNat = 10 ∨ c.toNat = 13 ∨ c.toNat = 11 ∨ c.toNat = 12)

/-- ASCII decimal digit, as used by Python str.isdigit on ASCII input. -/
def isDigitC (c : Char) : Bool :=
  decide (48 ≤ c.toNat ∧ c.toNat ≤ 57)

/-- ASCII model of Python str.lower, one character. -/
def lowerChar (c : Char) : Char :=
  if 65 ≤ c.toNat ∧ c.toNat ≤ 90 then Char.ofNat (c.toNat + 32) else c

/-- Python text.lower(). -/
def pyLower (s : Str) : Str := s.map lowerChar

/-- Python text.strip(): drop leading and trailing whitespace. -/
def pyStrip (s : Str) : Str :=
  (((s.dropWhile isSpaceC).reverse).dropWhile isSpaceC).reverse

/-- Worker for pySplit; cur is the current word accumulated in reverse. -/
def splitAux : Str → Str → List Str
  | [], cur => if cur = [] then [] else [cur.reverse]
  | c :: cs, cur =>
    if isSpaceC c then
      (if cur = [] then splitAux cs [] else cur.reverse :: splitAux cs [])
    else splitAux cs (c :: cur)

/-- Python text.split() with no argument: split on whitespace runs, no empty tokens. -/
def pySplit (s : Str) : List Str := splitAux s []

/-- Python text.startswith(pat). -/
def listStartsWith : Str → Str → Bool
  | _, [] => true
  | [], _ :: _ => false
  | c :: cs, d :: ds => if c = d then listStartsWith cs ds else false

/-- Numeric value of a digit string (most significant digit first). -/
def digitsToNat (s : Str) : Nat := s.foldl (fun a c => 10 * a + (c.toNat - 48)) 0

/-- Python amount_str.isdigit() on ASCII input: nonempty and all decimal digits. -/
def pyIsDigit (s : Str) : Bool := !s.isEmpty && s.all isDigitC

def digitChar : Nat → Char
  | 0 => '0'
  | 1 => '1'
  | 2 => '2'
  | 3 => '3'
  | 4 => '4'
  | 5 => '5'
  | 6 => '6'
  | 7 => '7'
  | 8 => '8'
  | _ => '9'

/-- Decimal digits of n, fuel-indexed so that it reduces definitionally. -/
def natToDigitsAux : Nat → Nat → Str
  | 0, _ => []
  | fuel + 1, n =>
    if n < 10 then [digitChar n] else natToDigitsAux fuel (n / 10) ++ [digitChar (n % 10)]

/-- Python str(n) for a natural number: the raw cell text of a stored integer amount. -/
def natToStr (n : Nat) : Str := natToDigitsAux (n + 1) n

/-- Python int(cell) on a cell string: optional sign, decimal digits; None when it raises. -/
def pyIntCell (s : Str) : Option Int :=
  let t := pyStrip s
  if pyIsDigit t then some ((digitsToNat t : Int))
  else
    match t with
    | '-' :: ds => if pyIsDigit ds then some (-((digitsToNat ds : Int))) else none
    | _ => none

/-- Worker for splitDash. -/
def splitDashAux : Str → Str → List Str
  | [], cur => [cur.reverse]
  | c :: cs, cur => if c = '-' then cur.reverse :: splitDashAux cs [] else splitDashAux cs (c :: cur)

/-- Python s.split(sep) for the single character separator, keeping empty parts. -/
def splitDash (s : Str) : List Str := splitDashAux s []

/-- Gregorian leap year rule used by datetime. -/
def isLeap (y : Nat) : Bool := decide (y % 4 = 0 ∧ (y % 100 ≠ 0 ∨ y % 400 = 0))

def daysInMonth (m y : Nat) : Nat :=
  if m = 2 then (if isLeap y then 29 else 28)
  else if m = 4 ∨ m = 6 ∨ m = 9 ∨ m = 11 then 30
  else 31

/-- datetime.strptime(s, d-m-Y format) succeeding.  CPython matches the day by
    the regex alternation 3[01] or [12]d or 0[1-9] or [1-9] (one or two digits,
    value 1..31, zero padding optional), the month likewise with value 1..12,
    the year by exactly four digits, with literal dashes between, the whole
    string consumed; the datetime constructor then rejects out-of-range
    calendar days (and year 0). -/
def strptimeDMY (s : Str) : Bool :=
  match splitDash s with
  | [d, m, y] =>
    pyIsDigit d && decide (d.length ≤ 2) && decide (1 ≤ digitsToNat d) &&
    pyIsDigit m && decide (m.length ≤ 2) && decide (1 ≤ digitsToNat m) &&
    decide (digitsToNat m ≤ 12) &&
    pyIsDigit y && decide (y.length = 4) && decide (1 ≤ digitsToNat y) &&
    decide (digitsToNat d ≤ daysInMonth (digitsToNat m) (digitsToNat y))
  | _ => false

/-- One send_message call, abstracted to which reply of the source it is. -/
inductive Msg where
  | helpText
  | showUsage
  | debugKeys
  | noRecords (cid : Str)
  | summary (cid : Str) (count : Nat) (total_given total_paid balance : Int)
      (payments : List (Str × Str))
  | showError
  | deleteAllUsage
  | noRecordsInSheet
  | deletedCount (n : Nat) (cid : Str)
  | entryDeleted
  | noMatchingEntry
  | deleteOneUsage
  | invalidSingleNumber
  | emptyCustomerId
  | amountNotNumber
  | amountNotPositive
  | invalidDateFormat
  | savedOk (cid : Str) (amount : Nat) (date : Str)
  | unknownCmd
  deriving DecidableEq

inductive Status where
  | ignored
  | ok
  | error
  deriving DecidableEq

/-- Observable outcome of one webhook delivery: the returned status, the
    messages sent (in order), and the sheet contents afterwards. -/
structure StepResult where
  status : Status
  msgs : List Msg
  sheet : Table
  deriving DecidableEq

/-- One record of sheet.get_all_records() under the expected header
    Customer_id, Amount, Date, Timestamp (the header /fix-headers establishes);
    missing trailing cells read as empty, as gspread pads them. -/
structure SheetRec where
  cid : Str
  amountCell : Str
  date : Str
  ts : Str
  deriving DecidableEq

def recOf (r : List Str) : SheetRec :=
  ⟨r.getD 0 [], r.getD 1 [], r.getD 2 [], r.getD 3 []⟩

/-- sheet.get_all_records(): first row is the header, the rest become records. -/
def getAllRecords (sheet : Table) : List SheetRec :=
  match sheet with
  | [] => []
  | _ :: rows => rows.map recOf

/-- Python string comparison: lexicographic on code points. -/
def strLt : Str → Str → Bool
  | _, [] => false
  | [], _ :: _ => true
  | a :: s, b :: t =>
    if a.toNat < b.toNat then true else if b.toNat < a.toNat then false else strLt s t

/-- Insert x after every already-placed record whose key is not greater:
    one step of a stable insertion sort. -/
def insertByTs (x : SheetRec) : List SheetRec → List SheetRec
  | [] => [x]
  | y :: ys => if strLt x.ts y.ts then x :: y :: ys else y :: insertByTs x ys

/-- customer_rows.sort(key) of the source: a stable ascending sort by the
    Timestamp field (the Entry_time key is absent under the expected header,
    so the fallback Timestamp key is what the lambda returns). -/
def sortByTs (l : List SheetRec) : List SheetRec := l.foldl (fun acc x => insertByTs x acc) []

/-- sum of int(p Amount) over payment records; none when some int() raises. -/
def sumAmounts : List SheetRec → Option Int
  | [] => some 0
  | r :: rs =>
    match pyIntCell r.amountCell, sumAmounts rs with
    | some a, some s => some (a + s)
    | _, _ => none

/-- total_given, total_paid, balance and the displayed payment list computed
    from the sorted customer rows; none when an int() conversion raises. -/
def showCompute : List SheetRec → Option (Int × Int × Int × List (Str × Str))
  | [] => none
  | r :: rest =>
    match pyIntCell r.amountCell, sumAmounts rest with
    | some given, some paid =>
      some (given, paid, given - paid, rest.map (fun p => (p.date, p.amountCell)))
    | _, _ => none

/-- The show command body (src/main.py lines 93-155).  When the record list is
    empty, the debug line records[0].keys() raises IndexError before anything
    is sent, and the except branch sends the retrieval-error reply. -/
def showBranch (customer_id : Str) (sheet : Table) : List Msg :=
  if customer_id = [] then [Msg.showUsage]
  else
    let records := getAllRecords sheet
    if records.isEmpty then [Msg.showError]
    else
      let customer_rows := records.filter (fun r => decide (pyStrip r.cid = customer_id))
      if customer_rows = [] then [Msg.debugKeys, Msg.noRecords customer_id]
      else
        match showCompute (sortByTs customer_rows) with
        | none => [Msg.debugKeys, Msg.showError]
        | some (g, p, b, pays) =>
          [Msg.debugKeys, Msg.summary customer_id customer_rows.length g p b pays]

/-- The filter loop of delete all (lines 177-182): rows that are empty lists
    are neither kept nor counted; nonempty rows are kept when their first cell
    differs from the target and counted when it matches. -/
def deleteAllFilter (customer_id : Str) : Table → Table × Nat
  | [] => ([], 0)
  | r :: rs =>
    let res := deleteAllFilter customer_id rs
    match r with
    | [] => res
    | c :: cells =>
      if c = customer_id then (res.1, res.2 + 1)
      else ((c :: cells) :: res.1, res.2)

/-- The delete all command body (lines 160-192). -/
def deleteAllBranch (customer_id : Str) (sheet : Table) : List Msg × Table :=
  if customer_id = [] then ([Msg.deleteAllUsage], sheet)
  else
    match sheet with
    | [] => ([Msg.noRecordsInSheet], sheet)
    | header :: rows =>
      let res := deleteAllFilter customer_id rows
      ([Msg.deletedCount res.2 customer_id], header :: res.1)

/-- Row match of the single-entry delete (lines 224-230): at least three cells
    and the first three equal to the id, amount and date tokens as strings. -/
def rowMatches (customer_id amount date : Str) (r : List Str) : Bool :=
  decide (r ≠ [] ∧ 3 ≤ r.length ∧ r.getD 0 [] = customer_id ∧
    r.getD 1 [] = amount ∧ r.getD 2 [] = date)

/-- The row loop of the single-entry delete (lines 223-233): skip the first
    matching row while the deleted flag is unset, keep everything else. -/
def deleteOneLoop (customer_id amount date : Str) : Table → Bool → Table × Bool
  | [], deleted => ([], deleted)
  | r :: rs, deleted =>
    if rowMatches customer_id amount date r && !deleted then
      deleteOneLoop customer_id amount date rs true
    else
      let res := deleteOneLoop customer_id amount date rs deleted
      (r :: res.1, res.2)

/-- The single-entry delete on a given sheet, after token extraction. -/
def deleteOneCore (customer_id amount date : Str) (sheet : Table) : List Msg × Table :=
  match sheet with
  | [] => ([Msg.noRecordsInSheet], sheet)
  | header :: rows =>
    let res := deleteOneLoop customer_id amount date rows false
    ((if res.2 then [Msg.entryDeleted] else [Msg.noMatchingEntry]), header :: res.1)

/-- The delete command body (lines 197-246): the original-case text is split;
    exactly four tokens are required. -/
def deleteOneBranch (text : Str) (sheet : Table) : List Msg × Table :=
  match pySplit text with
  | [_, customer_id, amount, date] => deleteOneCore customer_id amount date sheet
  | _ => ([Msg.deleteOneUsage], sheet)

/-- Save validation and append (lines 270-315).  amount is int(amount_str) of a
    digit-only token, hence a natural number, so the Python test amount <= 0
    is the test amount = 0 here. -/
def saveValidate (customer_id amount_str date nowTs : Str) (sheet : Table) : List Msg × Table :=
  if customer_id = [] ∨ pyStrip customer_id = [] then ([Msg.emptyCustomerId], sheet)
  else if !pyIsDigit amount_str then ([Msg.amountNotNumber], sheet)
  else
    let amount := digitsToNat amount_str
    if amount = 0 then ([Msg.amountNotPositive], sheet)
    else if !strptimeDMY date then ([Msg.invalidDateFormat], sheet)
    else
      ([Msg.savedOk (pyStrip customer_id) amount date],
        sheet ++ [[pyStrip customer_id, natToStr amount, date, nowTs]])

/-- The save section of the handler (lines 251-333), including the bare-number
    rejection and the unknown-command fallthrough. -/
def saveSection (text : Str) (now nowTs : Str) (sheet : Table) : List Msg × Table :=
  let parts := pySplit text
  if parts.length = 1 ∧ pyIsDigit (text.filter (fun c => decide (¬ c = ' '))) = true then
    ([Msg.invalidSingleNumber], sheet)
  else
    match parts with
    | [customer_id, amount_str] => saveValidate customer_id amount_str now nowTs sheet
    | [customer_id, amount_str, date] => saveValidate customer_id amount_str date nowTs sheet
    | _ => ([Msg.unknownCmd], sheet)

def helpForms : List Str := ["help".data, "/help".data, "/start".data, "commands".data]

def showPat : Str := "show".data

def deleteAllPat : Str := "delete all ".data

def deleteOnePat : Str := "delete ".data

/-- Which arm of the sequential if chain of the handler fires for a (stripped)
    text line; the order mirrors lines 67, 93, 160, 197, 254, 268 and 324. -/
inductive Branch where
  | helpB
  | showB
  | deleteAllB
  | deleteOneB
  | invalidNumB
  | saveB
  | unknownB
  deriving DecidableEq

def dispatchBranch (text : Str) : Branch :=
  if pyLower text ∈ helpForms then Branch.helpB
  else if listStartsWith (pyLower text) showPat then Branch.showB
  else if listStartsWith (pyLower text) deleteAllPat then Branch.deleteAllB
  else if listStartsWith (pyLower text) deleteOnePat then Branch.deleteOneB
  else
    let parts := pySplit text
    if parts.length = 1 ∧ pyIsDigit (text.filter (fun c => decide (¬ c = ' '))) = true then
      Branch.invalidNumB
    else if parts.length = 2 ∨ parts.length = 3 then Branch.saveB
    else Branch.unknownB

/-- The whole webhook handler (lines 49-343) for one delivery.  The show and
    delete all branches take their id from the lowercased text: under the
    startswith guard the first occurrence replaced by text_lower.replace is the
    leading one, so the extraction is a drop of the pattern length followed by
    a strip.  The single-entry delete splits the original-case text. -/
def telegram_webhook (authorized_user_id user_id : Int) (text0 : Str) (now nowTs : Str)
    (sheet : Table) : StepResult :=
  let text := pyStrip text0
  if user_id ≠ authorized_user_id then ⟨Status.ignored, [], sheet⟩
  else
    let text_lower := pyLower text
    match dispatchBranch text with
    | Branch.helpB => ⟨Status.ok, [Msg.helpText], sheet⟩
    | Branch.showB => ⟨Status.ok, showBranch (pyStrip (text_lower.drop 4)) sheet, sheet⟩
    | Branch.deleteAllB =>
      let res := deleteAllBranch (pyStrip (text_lower.drop 10)) sheet
      ⟨Status.ok, res.1, res.2⟩
    | Branch.deleteOneB =>
      let res := deleteOneBranch text sheet
      ⟨Status.ok, res.1, res.2⟩
    | Branch.invalidNumB | Branch.saveB | Branch.unknownB =>
      let res := saveSection text now nowTs sheet
      ⟨Status.ok, res.1, res.2⟩

/-- Modelled from the spec (section 4.1, claim C6): a date in day-month-year
    form with zero-padded two-digit day and month and four-digit year, naming
    a valid calendar date.  This is the format the spec words require, written
    here only to be compared with strptimeDMY, the validator the code runs. -/
def specZeroPaddedDMY (s : Str) : Bool :=
  match splitDash s with
  | [d, m, y] =>
    pyIsDigit d && decide (d.length = 2) && decide (1 ≤ digitsToNat d) &&
    pyIsDigit m && decide (m.length = 2) && decide (1 ≤ digitsToNat m) &&
    decide (digitsToNat m ≤ 12) &&
    pyIsDigit y && decide (y.length = 4) && decide (1 ≤ digitsToNat y) &&
    decide (digitsToNat d ≤ daysInMonth (digitsToNat m) (digitsToNat y))
  | _ => false

/- ===================== helper lemmas ===================== -/

theorem isSpaceC_eq_false_of_digit {c : Char} (h : isDigitC c = true) : isSpaceC c = false := by
  simp only [isDigitC, decide_eq_true_eq] at h
  simp only [isSpaceC, decide_eq_false_iff_not]
  omega

theorem lowerChar_of_digit {c : Char} (h : isDigitC c = true) : lowerChar c = c := by
  simp only [isDigitC, decide_eq_true_eq] at h
  unfold lowerChar
  rw [if_neg]
  omega

theorem ne_of_digit_out {c d : Char} (h : isDigitC c = true)
    (hd : d.toNat < 48 ∨ 57 < d.toNat) : c ≠ d := by
  intro he
  subst he
  simp only [isDigitC, decide_eq_true_eq] at h
  omega

theorem digit_ne_space {c : Char} (h : isDigitC c = true) : decide (¬ c = ' ') = true := by
  simp only [decide_eq_true_eq]
  exact ne_of_digit_out h (by decide)

theorem dropWhile_of_neg {p : Char → Bool} : ∀ (s : Str), (∀ c ∈ s, p c = false) →
    s.dropWhile p = s
  | [], _ => rfl
  | c :: cs, h => by
    have hc : p c = false := h c (List.mem_cons_self c cs)
    rw [List.dropWhile_cons, if_neg (by simp [hc])]

theorem pyStrip_of_nonspace {s : Str} (h : ∀ c ∈ s, isSpaceC c = false) : pyStrip s = s := by
  unfold pyStrip
  rw [dropWhile_of_neg s h,
    dropWhile_of_neg s.reverse (fun c hc => h c (List.mem_reverse.mp hc)),
    List.reverse_reverse]

theorem pyStrip_space_cons {s : Str} (hne : s ≠ []) (h : ∀ c ∈ s, isSpaceC c = false) :
    pyStrip (' ' :: s) = s := by
  unfold pyStrip
  rw [List.dropWhile_cons, if_pos (by decide),
    dropWhile_of_neg s h,
    dropWhile_of_neg s.reverse (fun c hc => h c (List.mem_reverse.mp hc)),
    List.reverse_reverse]

theorem pyStrip_head_last {c d : Char} (mid : Str)
    (hc : isSpaceC c = false) (hd : isSpaceC d = false) :
    pyStrip (c :: (mid ++ [d])) = c :: (mid ++ [d]) := by
  have h2 : (c :: (mid ++ [d])).reverse = d :: (mid.reverse ++ [c]) := by
    simp
  unfold pyStrip
  rw [List.dropWhile_cons, if_neg (by simp [hc]), h2,
    List.dropWhile_cons, if_neg (by simp [hd]), ← h2, List.reverse_reverse]

theorem pyLower_of_fixed : ∀ {s : Str}, (∀ c ∈ s, lowerChar c = c) → pyLower s = s := by
  intro s
  induction s with
  | nil => intro _; rfl
  | cons c cs ih =>
    intro h
    simp only [pyLower, List.map_cons]
    rw [h c (List.mem_cons_self c cs)]
    have := ih (fun x hx => h x (List.mem_cons_of_mem c hx))
    simp only [pyLower] at this
    rw [this]

theorem pyLower_append (s t : Str) : pyLower (s ++ t) = pyLower s ++ pyLower t := by
  simp [pyLower]

theorem splitAux_word : ∀ (w : Str), (∀ c ∈ w, isSpaceC c = false) →
    ∀ (s cur : Str), splitAux (w ++ s) cur = splitAux s (w.reverse ++ cur) := by
  intro w
  induction w with
  | nil => intro _ s cur; simp
  | cons c w ih =>
    intro h s cur
    have hc : isSpaceC c = false := h c (List.mem_cons_self c w)
    rw [List.cons_append]
    show (if isSpaceC c then _ else splitAux (w ++ s) (c :: cur)) = _
    rw [if_neg (by simp [hc]), ih (fun x hx => h x (List.mem_cons_of_mem c hx)) s (c :: cur)]
    simp

theorem pySplit_single {s : Str} (hne : s ≠ []) (h : ∀ c ∈ s, isSpaceC c = false) :
    pySplit s = [s] := by
  unfold pySplit
  have h2 := splitAux_word s h [] []
  rw [List.append_nil, List.append_nil] at h2
  rw [h2]
  show (if s.reverse = [] then _ else [s.reverse.reverse]) = _
  rw [if_neg (by simp [hne]), List.reverse_reverse]

theorem listStartsWith_append (p s : Str) : listStartsWith (p ++ s) p = true := by
  induction p with
  | nil =>
    cases s with
    | nil => rfl
    | cons c cs => rfl
  | cons c p ih =>
    rw [List.cons_append]
    show (if c = c then listStartsWith (p ++ s) p else false) = true
    rw [if_pos rfl, ih]

theorem listStartsWith_cons_ne {c d : Char} (cs pt : Str) (h : c ≠ d) :
    listStartsWith (c :: cs) (d :: pt) = false := by
  show (if c = d then _ else false) = false
  rw [if_neg h]

theorem showPat_cons : showPat = 's' :: ("how".data) := rfl

theorem deleteAllPat_cons : deleteAllPat = 'd' :: ("elete all ".data) := rfl

theorem deleteOnePat_cons : deleteOnePat = 'd' :: ("elete ".data) := rfl

theorem filter_of_true {p : Char → Bool} : ∀ (s : Str), (∀ c ∈ s, p c = true) →
    s.filter p = s := fun s h => List.filter_eq_self.mpr h

theorem insertByTs_length (x : SheetRec) : ∀ (l : List SheetRec),
    (insertByTs x l).length = l.length + 1
  | [] => rfl
  | y :: ys => by
    unfold insertByTs
    by_cases h : strLt x.ts y.ts = true
    · rw [if_pos h]; rfl
    · rw [if_neg h]
      simp [insertByTs_length x ys]

theorem sortByTs_foldl_length : ∀ (l acc : List SheetRec),
    (l.foldl (fun acc x => insertByTs x acc) acc).length = l.length + acc.length
  | [], acc => by simp
  | x :: xs, acc => by
    rw [List.foldl_cons, sortByTs_foldl_length xs (insertByTs x acc), insertByTs_length]
    simp
    omega

theorem sortByTs_length (l : List SheetRec) : (sortByTs l).length = l.length := by
  unfold sortByTs
  rw [sortByTs_foldl_length]
  simp

theorem isDigitC_digitChar (k : Nat) : isDigitC (digitChar k) = true := by
  match k with
  | 0 | 1 | 2 | 3 | 4 | 5 | 6 | 7 | 8 => rfl
  | _ + 9 => rfl

theorem digitChar_toNat {k : Nat} (h : k < 10) : (digitChar k).toNat = 48 + k := by
  interval_cases k <;> decide

theorem digitsToNat_append (l : Str) (c : Char) :
    digitsToNat (l ++ [c]) = 10 * digitsToNat l + (c.toNat - 48) := by
  unfold digitsToNat
  rw [List.foldl_append]
  rfl

theorem natToDigitsAux_digits : ∀ (fuel n : Nat), ∀ c ∈ natToDigitsAux fuel n, isDigitC c = true := by
  intro fuel
  induction fuel with
  | zero => intro n c hc; simp [natToDigitsAux] at hc
  | succ fuel ih =>
    intro n c hc
    by_cases h : n < 10
    · simp only [natToDigitsAux, if_pos h, List.mem_singleton] at hc
      subst hc
      exact isDigitC_digitChar n
    · simp only [natToDigitsAux, if_neg h, List.mem_append, List.mem_singleton] at hc
      rcases hc with hc | hc
      · exact ih (n / 10) c hc
      · subst hc
        exact isDigitC_digitChar (n % 10)

theorem natToDigitsAux_val : ∀ (fuel n : Nat), n < 10 ^ fuel →
    digitsToNat (natToDigitsAux fuel n) = n := by
  intro fuel
  induction fuel with
  | zero =>
    intro n h
    simp only [pow_zero, Nat.lt_one_iff] at h
    subst h
    rfl
  | succ fuel ih =>
    intro n h
    by_cases h10 : n < 10
    · simp only [natToDigitsAux, if_pos h10]
      show digitsToNat ([] ++ [digitChar n]) = n
      rw [digitsToNat_append, digitChar_toNat h10]
      simp [digitsToNat]
    · simp only [natToDigitsAux, if_neg h10]
      rw [digitsToNat_append]
      have hdiv : n / 10 < 10 ^ fuel := by
        rw [pow_succ] at h
        omega
      rw [ih (n / 10) hdiv, digitChar_toNat (Nat.mod_lt _ (by norm_num))]
      omega

theorem natToStr_val (n : Nat) : digitsToNat (natToStr n) = n := by
  unfold natToStr
  exact natToDigitsAux_val (n + 1) n
    (lt_of_lt_of_le (Nat.lt_pow_self (by norm_num) n)
      (Nat.pow_le_pow_right (by norm_num) (Nat.le_succ n)))

theorem natToStr_digits (n : Nat) : ∀ c ∈ natToStr n, isDigitC c = true :=
  fun c hc => natToDigitsAux_digits (n + 1) n c hc

theorem natToStr_ne_nil (n : Nat) : natToStr n ≠ [] := by
  unfold natToStr natToDigitsAux
  by_cases h : n < 10 <;> simp [h]

theorem pyIsDigit_natToStr (n : Nat) : pyIsDigit (natToStr n) = true := by
  unfold pyIsDigit
  rw [Bool.and_eq_true, List.all_eq_true]
  constructor
  · simp [natToStr_ne_nil n]
  · exact natToStr_digits n

theorem pyIntCell_natToStr (n : Nat) : pyIntCell (natToStr n) = some (n : Int) := by
  have hstrip : pyStrip (natToStr n) = natToStr n :=
    pyStrip_of_nonspace (fun c hc => isSpaceC_eq_false_of_digit (natToStr_digits n c hc))
  unfold pyIntCell
  simp only [hstrip, pyIsDigit_natToStr n, if_pos, natToStr_val n]

/- delete all: the loop is a filter and a count over the data rows. -/

theorem deleteAllFilter_eq (customer_id : Str) : ∀ (rows : Table),
    deleteAllFilter customer_id rows =
      (rows.filter (fun r => match r with | [] => false | c :: _ => decide (¬ c = customer_id)),
       rows.countP (fun r => match r with | [] => false | c :: _ => decide (c = customer_id))) := by
  intro rows
  induction rows with
  | nil => rfl
  | cons r rs ih =>
    cases r with
    | nil =>
      simp only [deleteAllFilter, ih, List.filter_cons, List.countP_cons]
      simp
    | cons c cells =>
      by_cases hc : c = customer_id
      · subst hc
        simp only [deleteAllFilter, ih, List.filter_cons, List.countP_cons]
        simp
      · simp only [deleteAllFilter, ih, List.filter_cons, List.countP_cons]
        simp [hc]

/- delete (single entry): the loop removes the first match and reports whether
   one was found. -/

theorem deleteOneLoop_true (customer_id amount date : Str) : ∀ (rows : Table),
    deleteOneLoop customer_id amount date rows true = (rows, true) := by
  intro rows
  induction rows with
  | nil => rfl
  | cons r rs ih =>
    simp [deleteOneLoop, ih]

theorem deleteOneLoop_false (customer_id amount date : Str) : ∀ (rows : Table),
    deleteOneLoop customer_id amount date rows false =
      (rows.eraseP (rowMatches customer_id amount date),
       rows.any (rowMatches customer_id amount date)) := by
  intro rows
  induction rows with
  | nil => rfl
  | cons r rs ih =>
    by_cases h : rowMatches customer_id amount date r = true
    · simp [deleteOneLoop, h, deleteOneLoop_true, List.eraseP_cons]
    · simp [deleteOneLoop, h, ih, List.eraseP_cons]

theorem eraseP_of_countP_le_one {p : List Str → Bool} : ∀ {rows : Table},
    rows.countP p ≤ 1 → ∀ r ∈ rows.eraseP p, p r = false := by
  intro rows
  induction rows with
  | nil => intro _ r hr; simp at hr
  | cons a rs ih =>
    intro h r hr
    by_cases ha : p a = true
    · rw [List.eraseP_cons, ha, cond_true] at hr
      have h1 : rs.countP p + 1 ≤ 1 := by simpa [List.countP_cons, ha] using h
      have h0 : rs.countP p = 0 := by omega
      have := List.countP_eq_zero.mp h0
      simpa using this r hr
    · have ha0 : p a = false := by
        cases hpa : p a
        · rfl
        · exact absurd hpa ha
      rw [List.eraseP_cons, ha0, cond_false] at hr
      rcases List.mem_cons.mp hr with rfl | hr'
      · exact ha0
      · refine ih ?_ r hr'
        simpa [List.countP_cons, ha0] using h

/- webhook reduction helpers: with an authorized sender and an already stripped
   text, the handler runs the arm that dispatchBranch selects. -/

theorem webhook_showB {auth : Int} {text : Str} (now nowTs : Str) (sheet : Table)
    (hstrip : pyStrip text = text) (hd : dispatchBranch text = Branch.showB) :
    telegram_webhook auth auth text now nowTs sheet =
      ⟨Status.ok, showBranch (pyStrip ((pyLower text).drop 4)) sheet, sheet⟩ := by
  have hne : ¬ (auth ≠ auth) := fun hcon => hcon rfl
  simp only [telegram_webhook, hstrip, hd, if_neg hne]

theorem webhook_deleteAllB {auth : Int} {text : Str} (now nowTs : Str) (sheet : Table)
    (hstrip : pyStrip text = text) (hd : dispatchBranch text = Branch.deleteAllB) :
    telegram_webhook auth auth text now nowTs sheet =
      ⟨Status.ok, (deleteAllBranch (pyStrip ((pyLower text).drop 10)) sheet).1,
        (deleteAllBranch (pyStrip ((pyLower text).drop 10)) sheet).2⟩ := by
  have hne : ¬ (auth ≠ auth) := fun hcon => hcon rfl
  simp only [telegram_webhook, hstrip, hd, if_neg hne]

theorem webhook_saveB {auth : Int} {text : Str} (now nowTs : Str) (sheet : Table)
    (hstrip : pyStrip text = text) (hd : dispatchBranch text = Branch.saveB) :
    telegram_webhook auth auth text now nowTs sheet =
      ⟨Status.ok, (saveSection text now nowTs sheet).1, (saveSection text now nowTs sheet).2⟩ := by
  have hne : ¬ (auth ≠ auth) := fun hcon => hcon rfl
  simp only [telegram_webhook, hstrip, hd, if_neg hne]

theorem webhook_invalidNumB {auth : Int} {text : Str} (now nowTs : Str) (sheet : Table)
    (hstrip : pyStrip text = text) (hd : dispatchBranch text = Branch.invalidNumB) :
    telegram_webhook auth auth text now nowTs sheet =
      ⟨Status.ok, (saveSection text now nowTs sheet).1, (saveSection text now nowTs sheet).2⟩ := by
  have hne : ¬ (auth ≠ auth) := fun hcon => hcon rfl
  simp only [telegram_webhook, hstrip, hd, if_neg hne]

theorem pyIsDigit_parts {s : Str} (h : pyIsDigit s = true) :
    s ≠ [] ∧ ∀ c ∈ s, isDigitC c = true := by
  unfold pyIsDigit at h
  rw [Bool.and_eq_true, List.all_eq_true] at h
  refine ⟨?_, h.2⟩
  intro h0
  subst h0
  simp at h

/- ===================== claim theorems ===================== -/

/-- C9: a delivery whose sender differs from the configured authorized user id
    returns the ignored status, sends no message and leaves the sheet exactly
    as it was (lines 61-62 return before any branch runs). -/
theorem unauthorized_ignored (authorized_user_id user_id : Int) (text0 now nowTs : Str)
    (sheet : Table) (h : user_id ≠ authorized_user_id) :
    telegram_webhook authorized_user_id user_id text0 now nowTs sheet =
      ⟨Status.ignored, [], sheet⟩ := by
  simp only [telegram_webhook, if_pos h]

/-- C9 witness: a concrete unauthorized sender. -/
theorem unauthorized_ignored_witness :
    telegram_webhook 1 2 ("show 132".data) ("05-10-2026".data) ("t".data)
        [["Customer_id".data, "Amount".data, "Date".data, "Timestamp".data]]
      = ⟨Status.ignored, [],
        [["Customer_id".data, "Amount".data, "Date".data, "Timestamp".data]]⟩ :=
  unauthorized_ignored 1 2 ("show 132".data) ("05-10-2026".data) ("t".data)
    [["Customer_id".data, "Amount".data, "Date".data, "Timestamp".data]] (by decide)

/-- C10: delete all rewrites the table to the header followed by exactly the
    nonempty data rows whose first cell differs from the target id, in order;
    empty rows are dropped but not counted, and the reported count is the
    number of nonempty rows whose first cell equals the target id. -/
theorem deleteAll_rewrite (customer_id : Str) (header : List Str) (rows : Table)
    (h : customer_id ≠ []) :
    deleteAllBranch customer_id (header :: rows) =
      ([Msg.deletedCount
          (rows.countP (fun r => match r with | [] => false | c :: _ => decide (c = customer_id)))
          customer_id],
        header ::
          rows.filter (fun r => match r with | [] => false | c :: _ => decide (¬ c = customer_id))) := by
  unfold deleteAllBranch
  rw [if_neg h]
  show ([Msg.deletedCount (deleteAllFilter customer_id rows).2 customer_id],
    header :: (deleteAllFilter customer_id rows).1) = _
  rw [deleteAllFilter_eq]

/-- C10 witness: a concrete table with an empty row and two matching rows. -/
theorem deleteAll_rewrite_witness :
    deleteAllBranch ("1".data)
        [["Customer_id".data, "Amount".data, "Date".data, "Timestamp".data],
         ["1".data, "5".data], [], ["2".data, "7".data], ["1".data, "3".data]]
      = ([Msg.deletedCount 2 ("1".data)],
        [["Customer_id".data, "Amount".data, "Date".data, "Timestamp".data],
         ["2".data, "7".data]]) :=
  (deleteAll_rewrite ("1".data)
    ["Customer_id".data, "Amount".data, "Date".data, "Timestamp".data]
    [["1".data, "5".data], [], ["2".data, "7".data], ["1".data, "3".data]]
    (by decide)).trans (by decide)

/-- C3 counterexample: with two identical matching rows in the store, the first
    delete succeeds and so does a second identical call, which removes the
    duplicate and reports success, not not-found. -/
theorem deleteOne_second_call_counterexample :
    deleteOneCore ("1".data) ("5".data) ("01-01-2026".data)
        [["Customer_id".data, "Amount".data, "Date".data, "Timestamp".data],
         ["1".data, "5".data, "01-01-2026".data],
         ["1".data, "5".data, "01-01-2026".data]]
      = ([Msg.entryDeleted],
        [["Customer_id".data, "Amount".data, "Date".data, "Timestamp".data],
         ["1".data, "5".data, "01-01-2026".data]])
    ∧ deleteOneCore ("1".data) ("5".data) ("01-01-2026".data)
        [["Customer_id".data, "Amount".data, "Date".data, "Timestamp".data],
         ["1".data, "5".data, "01-01-2026".data]]
      = ([Msg.entryDeleted],
        [["Customer_id".data, "Amount".data, "Date".data, "Timestamp".data]]) :=
  ⟨by decide, by decide⟩

/-- C3 (amended): delete removes exactly the first row matching the triple (so
    at most one row), reporting success exactly when a match existed; and when
    the store held at most one matching row, a second identical call removes
    nothing and reports not-found. -/
theorem deleteOne_first_match_second_call (customer_id amount date : Str)
    (header : List Str) (rows : Table) :
    deleteOneCore customer_id amount date (header :: rows) =
      ((if rows.any (rowMatches customer_id amount date) then [Msg.entryDeleted]
        else [Msg.noMatchingEntry]),
        header :: rows.eraseP (rowMatches customer_id amount date))
    ∧ (rows.countP (rowMatches customer_id amount date) ≤ 1 →
        deleteOneCore customer_id amount date
            (header :: rows.eraseP (rowMatches customer_id amount date)) =
          ([Msg.noMatchingEntry],
            header :: rows.eraseP (rowMatches customer_id amount date))) := by
  constructor
  · simp only [deleteOneCore]
    rw [deleteOneLoop_false]
  · intro hc
    have hnone := eraseP_of_countP_le_one hc
    simp only [deleteOneCore]
    rw [deleteOneLoop_false]
    have h1 : (rows.eraseP (rowMatches customer_id amount date)).eraseP
        (rowMatches customer_id amount date) = rows.eraseP (rowMatches customer_id amount date) := by
      apply List.eraseP_of_forall_not
      intro a ha
      simp [hnone a ha]
    have h2 : (rows.eraseP (rowMatches customer_id amount date)).any
        (rowMatches customer_id amount date) = false := by
      rw [List.any_eq_false]
      intro x hx
      simp [hnone x hx]
    rw [h1, h2]
    simp

/-- C3 witness: a store with exactly one matching row; the first call deletes
    it, the second reports not-found and leaves the store unchanged. -/
theorem deleteOne_first_match_second_call_witness :
    deleteOneCore ("1".data) ("5".data) ("01-01-2026".data)
        [["Customer_id".data, "Amount".data, "Date".data, "Timestamp".data],
         ["1".data, "5".data, "01-01-2026".data, "t1".data]]
      = ([Msg.entryDeleted],
        [["Customer_id".data, "Amount".data, "Date".data, "Timestamp".data]])
    ∧ deleteOneCore ("1".data) ("5".data) ("01-01-2026".data)
        [["Customer_id".data, "Amount".data, "Date".data, "Timestamp".data]]
      = ([Msg.noMatchingEntry],
        [["Customer_id".data, "Amount".data, "Date".data, "Timestamp".data]]) := by
  have h := deleteOne_first_match_second_call ("1".data) ("5".data) ("01-01-2026".data)
    ["Customer_id".data, "Amount".data, "Date".data, "Timestamp".data]
    [["1".data, "5".data, "01-01-2026".data, "t1".data]]
  refine ⟨h.1.trans (by decide), ?_⟩
  exact (h.2 (by decide)).trans (by decide)

/-- C4: delete all followed by show of the same id on a store whose only data
    row belonged to that id.  The deletion succeeds, but show then answers with
    the retrieval-error reply, not the no-records reply: the leftover debug
    line records[0].keys() raises IndexError on the now-empty record list
    before the not-found branch is reached. -/
theorem deleteAll_then_show_error :
    telegram_webhook 1 1 ("delete all 1".data) ("05-10-2026".data) ("t".data)
        [["Customer_id".data, "Amount".data, "Date".data, "Timestamp".data],
         ["1".data, "500".data, "01-01-2026".data, "t1".data]]
      = ⟨Status.ok, [Msg.deletedCount 1 ("1".data)],
        [["Customer_id".data, "Amount".data, "Date".data, "Timestamp".data]]⟩
    ∧ telegram_webhook 1 1 ("show 1".data) ("05-10-2026".data) ("t".data)
        [["Customer_id".data, "Amount".data, "Date".data, "Timestamp".data]]
      = ⟨Status.ok, [Msg.showError],
        [["Customer_id".data, "Amount".data, "Date".data, "Timestamp".data]]⟩ :=
  ⟨by decide, by decide⟩

/-- C7: the dispatch chain tries delete all before the generic delete rule, so
    a line of the form delete all id with nonempty id selects the delete-all
    arm and never the single-entry delete arm. -/
theorem dispatch_delete_all_first (id : Str) (hne : id ≠ []) :
    dispatchBranch (deleteAllPat ++ id) = Branch.deleteAllB ∧
      dispatchBranch (deleteAllPat ++ id) ≠ Branch.deleteOneB := by
  have hlowpat : pyLower deleteAllPat = deleteAllPat := by decide
  have hlow : pyLower (deleteAllPat ++ id) = deleteAllPat ++ pyLower id := by
    rw [pyLower_append, hlowpat]
  have hhelp : ¬ (pyLower (deleteAllPat ++ id) ∈ helpForms) := by
    rw [hlow]
    intro hm
    simp only [helpForms, List.mem_cons, List.not_mem_nil, or_false] at hm
    rcases hm with hm | hm | hm | hm
    · have hl := congrArg List.length hm
      rw [List.length_append, show deleteAllPat.length = 11 from rfl,
        show (("help".data)).length = 4 from rfl] at hl
      omega
    · have hl := congrArg List.length hm
      rw [List.length_append, show deleteAllPat.length = 11 from rfl,
        show (("/help".data)).length = 5 from rfl] at hl
      omega
    · have hl := congrArg List.length hm
      rw [List.length_append, show deleteAllPat.length = 11 from rfl,
        show (("/start".data)).length = 6 from rfl] at hl
      omega
    · have hl := congrArg List.length hm
      rw [List.length_append, show deleteAllPat.length = 11 from rfl,
        show (("commands".data)).length = 8 from rfl] at hl
      omega
  have hshow : listStartsWith (pyLower (deleteAllPat ++ id)) showPat = false := by
    rw [hlow, deleteAllPat_cons, List.cons_append, showPat_cons]
    exact listStartsWith_cons_ne _ _ (by decide)
  have hda : listStartsWith (pyLower (deleteAllPat ++ id)) deleteAllPat = true := by
    rw [hlow]
    exact listStartsWith_append _ _
  have h1 : dispatchBranch (deleteAllPat ++ id) = Branch.deleteAllB := by
    unfold dispatchBranch
    rw [if_neg hhelp, hshow, hda]
    simp
  exact ⟨h1, by rw [h1]; simp⟩

/-- C7 witness: the concrete line delete all 132. -/
theorem dispatch_delete_all_first_witness :
    dispatchBranch (("delete all 132".data)) = Branch.deleteAllB ∧
      dispatchBranch (("delete all 132".data)) ≠ Branch.deleteOneB :=
  dispatch_delete_all_first ("132".data) (by decide)

/-- C8: a line that is one bare digits-only token is answered with the
    invalid-format reply of the save section, with the sheet unchanged; it is
    neither saved nor treated as an unknown command. -/
theorem bare_number_invalid (auth : Int) (now nowTs : Str) (sheet : Table) (s : Str)
    (h : pyIsDigit s = true) :
    telegram_webhook auth auth s now nowTs sheet =
      ⟨Status.ok, [Msg.invalidSingleNumber], sheet⟩ := by
  obtain ⟨hne, hall⟩ := pyIsDigit_parts h
  have hnospace : ∀ c ∈ s, isSpaceC c = false := fun c hc =>
    isSpaceC_eq_false_of_digit (hall c hc)
  have hstrip : pyStrip s = s := pyStrip_of_nonspace hnospace
  have hlower : pyLower s = s := pyLower_of_fixed (fun c hc => lowerChar_of_digit (hall c hc))
  have hsplit : pySplit s = [s] := pySplit_single hne hnospace
  have hfilt : s.filter (fun x => decide (¬ x = ' ')) = s :=
    filter_of_true s (fun x hx => digit_ne_space (hall x hx))
  obtain ⟨c, cs, rfl⟩ : ∃ c cs, s = c :: cs := by
    cases s with
    | nil => exact absurd rfl hne
    | cons c cs => exact ⟨c, cs, rfl⟩
  have hc : isDigitC c = true := hall c (List.mem_cons_self c cs)
  have hhelp : ¬ (pyLower (c :: cs) ∈ helpForms) := by
    rw [hlower]
    intro hm
    simp only [helpForms, List.mem_cons, List.not_mem_nil, or_false] at hm
    rcases hm with hm | hm | hm | hm
    · have hh : c = 'h' := congrArg (fun l => List.headD l ' ') hm
      exact ne_of_digit_out hc (by decide) hh
    · have hh : c = '/' := congrArg (fun l => List.headD l ' ') hm
      exact ne_of_digit_out hc (by decide) hh
    · have hh : c = '/' := congrArg (fun l => List.headD l ' ') hm
      exact ne_of_digit_out hc (by decide) hh
    · have hh : c = 'c' := congrArg (fun l => List.headD l ' ') hm
      exact ne_of_digit_out hc (by decide) hh
  have hshow : listStartsWith (pyLower (c :: cs)) showPat = false := by
    rw [hlower, showPat_cons]
    exact listStartsWith_cons_ne _ _ (ne_of_digit_out hc (by decide))
  have hda : listStartsWith (pyLower (c :: cs)) deleteAllPat = false := by
    rw [hlower, deleteAllPat_cons]
    exact listStartsWith_cons_ne _ _ (ne_of_digit_out hc (by decide))
  have hdo : listStartsWith (pyLower (c :: cs)) deleteOnePat = false := by
    rw [hlower, deleteOnePat_cons]
    exact listStartsWith_cons_ne _ _ (ne_of_digit_out hc (by decide))
  have hd : dispatchBranch (c :: cs) = Branch.invalidNumB := by
    unfold dispatchBranch
    rw [if_neg hhelp, hshow, hda, hdo, hsplit, hfilt]
    simp [h]
  rw [webhook_invalidNumB now nowTs sheet hstrip hd]
  unfold saveSection
  rw [hsplit, hfilt]
  simp [h]

/-- C8 witness: the concrete bare number 2100. -/
theorem bare_number_invalid_witness :
    telegram_webhook 1 1 (("2100".data)) (("05-10-2026".data)) (("t".data))
        [["Customer_id".data, "Amount".data, "Date".data, "Timestamp".data]]
      = ⟨Status.ok, [Msg.invalidSingleNumber],
        [["Customer_id".data, "Amount".data, "Date".data, "Timestamp".data]]⟩ :=
  bare_number_invalid 1 ("05-10-2026".data) ("t".data)
    [["Customer_id".data, "Amount".data, "Date".data, "Timestamp".data]]
    ("2100".data) (by decide)

theorem saveSection_two (text id amtTok : Str) (now nowTs : Str) (sheet : Table)
    (hs : pySplit text = [id, amtTok]) :
    saveSection text now nowTs sheet = saveValidate id amtTok now nowTs sheet := by
  simp only [saveSection, hs]
  rw [if_neg (by simp)]

theorem saveSection_three (text id amtTok dTok : Str) (now nowTs : Str) (sheet : Table)
    (hs : pySplit text = [id, amtTok, dTok]) :
    saveSection text now nowTs sheet = saveValidate id amtTok dTok nowTs sheet := by
  simp only [saveSection, hs]
  rw [if_neg (by simp)]

theorem saveValidate_bad_amount (id amtTok dTok nowTs : Str) (sheet : Table)
    (hid : pyStrip id ≠ [])
    (hbad : pyIsDigit amtTok = false ∨ digitsToNat amtTok = 0) :
    saveValidate id amtTok dTok nowTs sheet =
      ((if pyIsDigit amtTok = true then [Msg.amountNotPositive] else [Msg.amountNotNumber]),
        sheet) := by
  have hidne : id ≠ [] := by
    intro h0
    apply hid
    rw [h0]
    rfl
  unfold saveValidate
  rw [if_neg (by push_neg; exact ⟨hidne, hid⟩)]
  cases hdig : pyIsDigit amtTok
  · simp [hdig]
  · have hz : digitsToNat amtTok = 0 := by
      rcases hbad with hb | hb
      · rw [hdig] at hb
        cases hb
      · exact hb
    simp [hdig, hz]

theorem saveValidate_good (id amtTok dTok nowTs : Str) (sheet : Table)
    (hid : pyStrip id ≠ [])
    (hamt : pyIsDigit amtTok = true)
    (hpos : digitsToNat amtTok ≠ 0) :
    saveValidate id amtTok dTok nowTs sheet =
      (if strptimeDMY dTok = true
        then ([Msg.savedOk (pyStrip id) (digitsToNat amtTok) dTok],
          sheet ++ [[pyStrip id, natToStr (digitsToNat amtTok), dTok, nowTs]])
        else ([Msg.invalidDateFormat], sheet)) := by
  have hidne : id ≠ [] := by
    intro h0
    apply hid
    rw [h0]
    rfl
  unfold saveValidate
  rw [if_neg (by push_neg; exact ⟨hidne, hid⟩)]
  rw [hamt]
  cases hdt : strptimeDMY dTok
  · simp [hpos, hdt]
  · simp [hpos, hdt]

/-- C5: a save command (2 or 3 tokens reaching the save section) whose amount
    token is not digits-only, or parses to zero, is rejected with the matching
    validation reply and the sheet is left unchanged. -/
theorem save_rejects_bad_amount (auth : Int) (now nowTs : Str) (sheet : Table)
    (text id amtTok dTok : Str)
    (hstrip : pyStrip text = text)
    (hd : dispatchBranch text = Branch.saveB)
    (hsplit : pySplit text = [id, amtTok] ∨ pySplit text = [id, amtTok, dTok])
    (hid : pyStrip id ≠ [])
    (hbad : pyIsDigit amtTok = false ∨ digitsToNat amtTok = 0) :
    telegram_webhook auth auth text now nowTs sheet =
      ⟨Status.ok,
        (if pyIsDigit amtTok = true then [Msg.amountNotPositive] else [Msg.amountNotNumber]),
        sheet⟩ := by
  rw [webhook_saveB now nowTs sheet hstrip hd]
  rcases hsplit with hs | hs
  · rw [saveSection_two text id amtTok now nowTs sheet hs,
      saveValidate_bad_amount id amtTok now nowTs sheet hid hbad]
  · rw [saveSection_three text id amtTok dTok now nowTs sheet hs,
      saveValidate_bad_amount id amtTok dTok nowTs sheet hid hbad]

/-- C5 witness: the concrete commands 1 0 (zero amount) and 1 x1 (non-numeric). -/
theorem save_rejects_bad_amount_witness :
    telegram_webhook 1 1 (("1 0".data)) (("05-10-2026".data)) (("t".data))
        [["Customer_id".data, "Amount".data, "Date".data, "Timestamp".data]]
      = ⟨Status.ok, [Msg.amountNotPositive],
        [["Customer_id".data, "Amount".data, "Date".data, "Timestamp".data]]⟩
    ∧ telegram_webhook 1 1 (("1 x1".data)) (("05-10-2026".data)) (("t".data))
        [["Customer_id".data, "Amount".data, "Date".data, "Timestamp".data]]
      = ⟨Status.ok, [Msg.amountNotNumber],
        [["Customer_id".data, "Amount".data, "Date".data, "Timestamp".data]]⟩ := by
  constructor
  · have h := save_rejects_bad_amount 1 ("05-10-2026".data) ("t".data)
      [["Customer_id".data, "Amount".data, "Date".data, "Timestamp".data]]
      ("1 0".data) ("1".data) ("0".data) [] (by decide) (by decide)
      (Or.inl (by decide)) (by decide) (Or.inr (by decide))
    exact h.trans (by decide)
  · have h := save_rejects_bad_amount 1 ("05-10-2026".data) ("t".data)
      [["Customer_id".data, "Amount".data, "Date".data, "Timestamp".data]]
      ("1 x1".data) ("1".data) ("x1".data) [] (by decide) (by decide)
      (Or.inl (by decide)) (by decide) (Or.inl (by decide))
    exact h.trans (by decide)

/-- C6 counterexample: the date 1-01-2026 has a one-digit day, so the spec
    format of claim C6 (zero-padded two-digit day and month) rejects it, but
    strptime accepts it and the save command 7 5 1-01-2026 stores the row. -/
theorem save_date_zero_padding_counterexample :
    strptimeDMY (("1-01-2026".data)) = true
    ∧ specZeroPaddedDMY (("1-01-2026".data)) = false
    ∧ telegram_webhook 1 1 (("7 5 1-01-2026".data)) (("05-10-2026".data)) (("t0".data))
        [["Customer_id".data, "Amount".data, "Date".data, "Timestamp".data]]
      = ⟨Status.ok, [Msg.savedOk ("7".data) 5 ("1-01-2026".data)],
        [["Customer_id".data, "Amount".data, "Date".data, "Timestamp".data],
         ["7".data, "5".data, "1-01-2026".data, "t0".data]]⟩ :=
  ⟨by decide, by decide, by decide⟩

/-- C6 (amended): for a save command with an explicit date token, the row is
    appended exactly when the token passes strptime day-month-year (one or two
    digit day and month, four digit year, valid calendar date), otherwise the
    date-format reply is sent and the sheet is unchanged; the invalid calendar
    date 31-02-2026 is rejected; with the date omitted the row is appended
    with the current date. -/
theorem save_date_validation (auth : Int) (now nowTs : Str) (sheet : Table)
    (text3 text2 id amtTok dateTok : Str)
    (hstrip3 : pyStrip text3 = text3)
    (hd3 : dispatchBranch text3 = Branch.saveB)
    (hsplit3 : pySplit text3 = [id, amtTok, dateTok])
    (hstrip2 : pyStrip text2 = text2)
    (hd2 : dispatchBranch text2 = Branch.saveB)
    (hsplit2 : pySplit text2 = [id, amtTok])
    (hid : pyStrip id ≠ [])
    (hamt : pyIsDigit amtTok = true)
    (hpos : digitsToNat amtTok ≠ 0)
    (hnow : strptimeDMY now = true) :
    ((telegram_webhook auth auth text3 now nowTs sheet).sheet =
        sheet ++ [[pyStrip id, natToStr (digitsToNat amtTok), dateTok, nowTs]]
      ↔ strptimeDMY dateTok = true)
    ∧ (strptimeDMY dateTok = false →
        telegram_webhook auth auth text3 now nowTs sheet =
          ⟨Status.ok, [Msg.invalidDateFormat], sheet⟩)
    ∧ strptimeDMY (("31-02-2026".data)) = false
    ∧ telegram_webhook auth auth text2 now nowTs sheet =
        ⟨Status.ok, [Msg.savedOk (pyStrip id) (digitsToNat amtTok) now],
          sheet ++ [[pyStrip id, natToStr (digitsToNat amtTok), now, nowTs]]⟩ := by
  have h3 : telegram_webhook auth auth text3 now nowTs sheet =
      ⟨Status.ok, (saveSection text3 now nowTs sheet).1, (saveSection text3 now nowTs sheet).2⟩ :=
    webhook_saveB now nowTs sheet hstrip3 hd3
  rw [saveSection_three text3 id amtTok dateTok now nowTs sheet hsplit3,
    saveValidate_good id amtTok dateTok nowTs sheet hid hamt hpos] at h3
  have h2 : telegram_webhook auth auth text2 now nowTs sheet =
      ⟨Status.ok, (saveSection text2 now nowTs sheet).1, (saveSection text2 now nowTs sheet).2⟩ :=
    webhook_saveB now nowTs sheet hstrip2 hd2
  rw [saveSection_two text2 id amtTok now nowTs sheet hsplit2,
    saveValidate_good id amtTok now nowTs sheet hid hamt hpos, if_pos hnow] at h2
  refine ⟨?_, ?_, by decide, h2⟩
  · cases hdt : strptimeDMY dateTok
    · rw [hdt] at h3
      simp only [Bool.false_eq_true, if_false] at h3
      rw [h3]
      constructor
      · intro habs
        have := congrArg List.length habs
        simp at this
      · intro habs
        cases habs
    · rw [hdt] at h3
      simp only [if_pos] at h3
      rw [h3]
      simp
  · intro hdt
    rw [hdt] at h3
    simp only [Bool.false_eq_true, if_false] at h3
    exact h3

/-- C6 witness: a save with the lenient date 1-1-2026 is stored, one with the
    date 31-02-2026 is rejected, and a dateless save stores the current date. -/
theorem save_date_validation_witness :
    ((telegram_webhook 1 1 (("7 5 1-1-2026".data)) (("05-10-2026".data)) (("t0".data))
        [["Customer_id".data, "Amount".data, "Date".data, "Timestamp".data]]).sheet =
      [["Customer_id".data, "Amount".data, "Date".data, "Timestamp".data],
       ["7".data, "5".data, "1-1-2026".data, "t0".data]])
    ∧ telegram_webhook 1 1 (("7 5 31-02-2026".data)) (("05-10-2026".data)) (("t0".data))
        [["Customer_id".data, "Amount".data, "Date".data, "Timestamp".data]]
      = ⟨Status.ok, [Msg.invalidDateFormat],
        [["Customer_id".data, "Amount".data, "Date".data, "Timestamp".data]]⟩
    ∧ telegram_webhook 1 1 (("7 5".data)) (("05-10-2026".data)) (("t0".data))
        [["Customer_id".data, "Amount".data, "Date".data, "Timestamp".data]]
      = ⟨Status.ok, [Msg.savedOk ("7".data) 5 ("05-10-2026".data)],
        [["Customer_id".data, "Amount".data, "Date".data, "Timestamp".data],
         ["7".data, "5".data, "05-10-2026".data, "t0".data]]⟩ := by
  have ha := save_date_validation 1 ("05-10-2026".data) ("t0".data)
    [["Customer_id".data, "Amount".data, "Date".data, "Timestamp".data]]
    ("7 5 1-1-2026".data) ("7 5".data) ("7".data) ("5".data) ("1-1-2026".data)
    (by decide) (by decide) (by decide) (by decide) (by decide) (by decide)
    (by decide) (by decide) (by decide) (by decide)
  have hb := save_date_validation 1 ("05-10-2026".data) ("t0".data)
    [["Customer_id".data, "Amount".data, "Date".data, "Timestamp".data]]
    ("7 5 31-02-2026".data) ("7 5".data) ("7".data) ("5".data) ("31-02-2026".data)
    (by decide) (by decide) (by decide) (by decide) (by decide) (by decide)
    (by decide) (by decide) (by decide) (by decide)
  refine ⟨(ha.1.mpr (by decide)).trans (by decide), ?_, hb.2.2.2.trans (by decide)⟩
  exact (hb.2.1 (by decide)).trans (by decide)

/-- C2: when the requested id has matching records, show sorts them ascending
    by the recorded Timestamp cell (stably) and reports total_given as the
    first sorted row's amount, total_paid as the sum of the remaining rows'
    amounts, and balance as their difference, not clamped at zero. -/
theorem show_summary_reconciliation (sheet : Table) (customer_id : Str)
    (r0 : SheetRec) (rest : List SheetRec) (g p : Int)
    (hcid : customer_id ≠ [])
    (hsort : sortByTs ((getAllRecords sheet).filter
        (fun r => decide (pyStrip r.cid = customer_id))) = r0 :: rest)
    (hg : pyIntCell r0.amountCell = some g)
    (hp : sumAmounts rest = some p) :
    showBranch customer_id sheet =
      [Msg.debugKeys,
        Msg.summary customer_id (rest.length + 1) g p (g - p)
          (rest.map (fun q => (q.date, q.amountCell)))] := by
  have hrowsne : (getAllRecords sheet).filter
      (fun r => decide (pyStrip r.cid = customer_id)) ≠ [] := by
    intro h0
    rw [h0] at hsort
    cases hsort
  have hrecne : (getAllRecords sheet).isEmpty = false := by
    cases hrec : getAllRecords sheet with
    | nil =>
      apply absurd ?_ hrowsne
      rw [hrec]
      rfl
    | cons a l => rfl
  have hlen : ((getAllRecords sheet).filter
      (fun r => decide (pyStrip r.cid = customer_id))).length = rest.length + 1 := by
    have hl := sortByTs_length ((getAllRecords sheet).filter
      (fun r => decide (pyStrip r.cid = customer_id)))
    rw [hsort] at hl
    simpa using hl.symm
  simp only [showBranch, if_neg hcid, hrecne, Bool.false_eq_true, if_false, if_neg hrowsne,
    hsort, hlen]
  simp only [showCompute, hg, hp]

/-- C2 witness: two rows for customer 1 with amounts 5 and then 300 give
    total_given 5, total_paid 300 and the negative, unclamped balance -295. -/
theorem show_summary_reconciliation_witness :
    showBranch ("1".data)
        [["Customer_id".data, "Amount".data, "Date".data, "Timestamp".data],
         ["1".data, "5".data, "01-01-2026".data, "01-01-2026 10:00:00".data],
         ["1".data, "300".data, "02-01-2026".data, "02-01-2026 10:00:00".data]]
      = [Msg.debugKeys,
        Msg.summary ("1".data) 2 5 300 (-295)
          [(("02-01-2026".data), ("300".data))]] := by
  have h := show_summary_reconciliation
    [["Customer_id".data, "Amount".data, "Date".data, "Timestamp".data],
     ["1".data, "5".data, "01-01-2026".data, "01-01-2026 10:00:00".data],
     ["1".data, "300".data, "02-01-2026".data, "02-01-2026 10:00:00".data]]
    ("1".data)
    ⟨("1".data), ("5".data), ("01-01-2026".data), ("01-01-2026 10:00:00".data)⟩
    [⟨("1".data), ("300".data), ("02-01-2026".data), ("02-01-2026 10:00:00".data)⟩]
    5 300 (by decide) (by decide) (by decide) (by decide)
  exact h.trans (by decide)

theorem isEmpty_false_of_ne {α : Type} {l : List α} (h : l ≠ []) : l.isEmpty = false := by
  cases l with
  | nil => exact absurd rfl h
  | cons a t => rfl

theorem pyStrip_cons_append (c : Char) (mid s : Str) (hc : isSpaceC c = false)
    (hne : s ≠ []) (hs : ∀ x ∈ s, isSpaceC x = false) :
    pyStrip (c :: (mid ++ s)) = c :: (mid ++ s) := by
  have hform : (mid ++ s.dropLast) ++ [s.getLast hne] = mid ++ s := by
    rw [List.append_assoc, List.dropLast_append_getLast hne]
  rw [← hform]
  exact pyStrip_head_last _ hc (hs _ (List.getLast_mem hne))

/-- C1 counterexample: the id A is accepted by save and stored verbatim, but
    show lowercases the whole line before extracting the id, so show A queries
    a and finds no records: the claim fails for ids with uppercase letters. -/
theorem save_show_uppercase_counterexample :
    telegram_webhook 1 1 (("A 5 01-01-2026".data)) (("05-10-2026".data)) (("t1".data))
        [["Customer_id".data, "Amount".data, "Date".data, "Timestamp".data]]
      = ⟨Status.ok, [Msg.savedOk ("A".data) 5 ("01-01-2026".data)],
        [["Customer_id".data, "Amount".data, "Date".data, "Timestamp".data],
         ["A".data, "5".data, "01-01-2026".data, "t1".data]]⟩
    ∧ telegram_webhook 1 1 (("show A".data)) (("05-10-2026".data)) (("t2".data))
        [["Customer_id".data, "Amount".data, "Date".data, "Timestamp".data],
         ["A".data, "5".data, "01-01-2026".data, "t1".data]]
      = ⟨Status.ok, [Msg.debugKeys, Msg.noRecords ("a".data)],
        [["Customer_id".data, "Amount".data, "Date".data, "Timestamp".data],
         ["A".data, "5".data, "01-01-2026".data, "t1".data]]⟩ :=
  ⟨by decide, by decide⟩

/-- C1 (amended): for a save command accepted with an id that has no uppercase
    letters, whose id had no prior row in the store, the save appends the row
    and a following show of that id reports a summary whose total_given is
    exactly the saved amount. -/
theorem save_show_first_row_total_given (auth : Int) (now nowTs : Str)
    (header : List Str) (rows : Table) (text id amtTok dateTok : Str)
    (hstrip : pyStrip text = text)
    (hd : dispatchBranch text = Branch.saveB)
    (hsplit : pySplit text = [id, amtTok, dateTok] ∨
      (pySplit text = [id, amtTok] ∧ dateTok = now))
    (hidne : id ≠ [])
    (hidns : ∀ c ∈ id, isSpaceC c = false)
    (hlow : pyLower id = id)
    (hamt : pyIsDigit amtTok = true)
    (hpos : digitsToNat amtTok ≠ 0)
    (hdate : strptimeDMY dateTok = true)
    (hfirst : ∀ r ∈ rows, pyStrip (recOf r).cid ≠ id) :
    telegram_webhook auth auth text now nowTs (header :: rows) =
      ⟨Status.ok, [Msg.savedOk id (digitsToNat amtTok) dateTok],
        header :: (rows ++ [[id, natToStr (digitsToNat amtTok), dateTok, nowTs]])⟩
    ∧ telegram_webhook auth auth (("show ".data) ++ id) now nowTs
        (header :: (rows ++ [[id, natToStr (digitsToNat amtTok), dateTok, nowTs]])) =
      ⟨Status.ok,
        [Msg.debugKeys,
          Msg.summary id 1 ((digitsToNat amtTok : Int)) 0 ((digitsToNat amtTok : Int)) []],
        header :: (rows ++ [[id, natToStr (digitsToNat amtTok), dateTok, nowTs]])⟩ := by
  have hidstrip : pyStrip id = id := pyStrip_of_nonspace hidns
  have hidstripne : pyStrip id ≠ [] := by
    rw [hidstrip]
    exact hidne
  have hsave : telegram_webhook auth auth text now nowTs (header :: rows) =
      ⟨Status.ok, [Msg.savedOk id (digitsToNat amtTok) dateTok],
        header :: (rows ++ [[id, natToStr (digitsToNat amtTok), dateTok, nowTs]])⟩ := by
    rw [webhook_saveB now nowTs (header :: rows) hstrip hd]
    rcases hsplit with hs | hs2
    · rw [saveSection_three text id amtTok dateTok now nowTs (header :: rows) hs,
        saveValidate_good id amtTok dateTok nowTs (header :: rows) hidstripne hamt hpos,
        if_pos hdate, hidstrip]
      rfl
    · obtain ⟨hs, hdn⟩ := hs2
      rw [hdn]
      rw [saveSection_two text id amtTok now nowTs (header :: rows) hs,
        saveValidate_good id amtTok now nowTs (header :: rows) hidstripne hamt hpos,
        if_pos (hdn ▸ hdate), hidstrip]
      rfl
  refine ⟨hsave, ?_⟩
  have hshowstrip : pyStrip (("show ".data) ++ id) = ("show ".data) ++ id := by
    show pyStrip ('s' :: ((("how ".data)) ++ id)) = 's' :: ((("how ".data)) ++ id)
    exact pyStrip_cons_append 's' (("how ".data)) id (by decide) hidne hidns
  have hlowshow : pyLower (("show ".data) ++ id) = ("show ".data) ++ id := by
    rw [pyLower_append, hlow, show pyLower (("show ".data)) = (("show ".data)) from by decide]
  have hhelp : ¬ (pyLower (("show ".data) ++ id) ∈ helpForms) := by
    rw [hlowshow]
    intro hm
    simp only [helpForms, List.mem_cons, List.not_mem_nil, or_false] at hm
    rcases hm with hm | hm | hm | hm
    · have hh : 's' = 'h' := congrArg (fun l => List.headD l ' ') hm
      exact absurd hh (by decide)
    · have hh : 's' = '/' := congrArg (fun l => List.headD l ' ') hm
      exact absurd hh (by decide)
    · have hh : 's' = '/' := congrArg (fun l => List.headD l ' ') hm
      exact absurd hh (by decide)
    · have hh : 's' = 'c' := congrArg (fun l => List.headD l ' ') hm
      exact absurd hh (by decide)
  have hsw : listStartsWith (pyLower (("show ".data) ++ id)) showPat = true := by
    rw [hlowshow, show (("show ".data) ++ id) = showPat ++ (' ' :: id) from rfl]
    exact listStartsWith_append _ _
  have hdshow : dispatchBranch (("show ".data) ++ id) = Branch.showB := by
    unfold dispatchBranch
    rw [if_neg hhelp, hsw]
    simp
  rw [webhook_showB now nowTs (header :: (rows ++ [[id, natToStr (digitsToNat amtTok), dateTok, nowTs]]))
    hshowstrip hdshow]
  have hdrop : pyStrip ((pyLower (("show ".data) ++ id)).drop 4) = id := by
    rw [hlowshow]
    show pyStrip (' ' :: id) = id
    exact pyStrip_space_cons hidne hidns
  rw [hdrop]
  have hshowb : showBranch id (header :: (rows ++ [[id, natToStr (digitsToNat amtTok), dateTok, nowTs]])) =
      [Msg.debugKeys,
        Msg.summary id 1 ((digitsToNat amtTok : Int)) 0 ((digitsToNat amtTok : Int)) []] := by
    have hrecs : getAllRecords (header :: (rows ++ [[id, natToStr (digitsToNat amtTok), dateTok, nowTs]]))
        = rows.map recOf ++ [recOf [id, natToStr (digitsToNat amtTok), dateTok, nowTs]] := by
      simp [getAllRecords]
    have hfilter : (rows.map recOf ++ [recOf [id, natToStr (digitsToNat amtTok), dateTok, nowTs]]).filter
        (fun r => decide (pyStrip r.cid = id))
        = [recOf [id, natToStr (digitsToNat amtTok), dateTok, nowTs]] := by
      rw [List.filter_append]
      have h1 : (rows.map recOf).filter (fun r => decide (pyStrip r.cid = id)) = [] := by
        rw [List.filter_eq_nil_iff]
        intro a ha
        obtain ⟨r, hr, rfl⟩ := List.mem_map.mp ha
        simp only [decide_eq_true_eq]
        exact hfirst r hr
      have h2 : ([recOf [id, natToStr (digitsToNat amtTok), dateTok, nowTs]]).filter
          (fun r => decide (pyStrip r.cid = id))
          = [recOf [id, natToStr (digitsToNat amtTok), dateTok, nowTs]] := by
        rw [List.filter_cons,
          show (recOf [id, natToStr (digitsToNat amtTok), dateTok, nowTs]).cid = id from rfl,
          hidstrip]
        simp
      rw [h1, h2, List.nil_append]
    have hrecne : (getAllRecords (header :: (rows ++ [[id, natToStr (digitsToNat amtTok), dateTok, nowTs]]))).isEmpty = false := by
      rw [hrecs]
      apply isEmpty_false_of_ne
      simp
    simp only [showBranch, if_neg hidne, hrecne, Bool.false_eq_true, if_false, hrecs, hfilter,
      if_neg (by simp : ¬([recOf [id, natToStr (digitsToNat amtTok), dateTok, nowTs]] = []))]
    rw [show sortByTs [recOf [id, natToStr (digitsToNat amtTok), dateTok, nowTs]]
      = [recOf [id, natToStr (digitsToNat amtTok), dateTok, nowTs]] from rfl]
    simp only [showCompute,
      show (recOf [id, natToStr (digitsToNat amtTok), dateTok, nowTs]).amountCell
        = natToStr (digitsToNat amtTok) from rfl,
      pyIntCell_natToStr (digitsToNat amtTok),
      show sumAmounts [] = some 0 from rfl]
    rw [sub_zero]
    rw [isEmpty_false_of_ne
      (show (List.map recOf rows ++ [recOf [id, natToStr (digitsToNat amtTok), dateTok, nowTs]])
        ≠ [] by simp)]
    simp
  rw [hshowb]

/-- C1 witness: saving 500 for the fresh id 7 (store already holding a row for
    id 9) and then showing 7 reports total_given 500. -/
theorem save_show_first_row_total_given_witness :
    telegram_webhook 1 1 (("7 500 01-01-2026".data)) (("05-10-2026".data)) (("t1".data))
        [["Customer_id".data, "Amount".data, "Date".data, "Timestamp".data],
         ["9".data, "3".data, "01-01-2026".data, "t0".data]]
      = ⟨Status.ok, [Msg.savedOk ("7".data) 500 ("01-01-2026".data)],
        [["Customer_id".data, "Amount".data, "Date".data, "Timestamp".data],
         ["9".data, "3".data, "01-01-2026".data, "t0".data],
         ["7".data, "500".data, "01-01-2026".data, "t1".data]]⟩
    ∧ telegram_webhook 1 1 (("show 7".data)) (("05-10-2026".data)) (("t1".data))
        [["Customer_id".data, "Amount".data, "Date".data, "Timestamp".data],
         ["9".data, "3".data, "01-01-2026".data, "t0".data],
         ["7".data, "500".data, "01-01-2026".data, "t1".data]]
      = ⟨Status.ok, [Msg.debugKeys, Msg.summary ("7".data) 1 500 0 500 []],
        [["Customer_id".data, "Amount".data, "Date".data, "Timestamp".data],
         ["9".data, "3".data, "01-01-2026".data, "t0".data],
         ["7".data, "500".data, "01-01-2026".data, "t1".data]]⟩ := by
  have h := save_show_first_row_total_given 1 ("05-10-2026".data) ("t1".data)
    ["Customer_id".data, "Amount".data, "Date".data, "Timestamp".data]
    [["9".data, "3".data, "01-01-2026".data, "t0".data]]
    ("7 500 01-01-2026".data) ("7".data) ("500".data) ("01-01-2026".data)
    (by decide) (by decide) (Or.inl (by decide)) (by decide) (by decide) (by decide)
    (by decide) (by decide) (by decide) (by decide)
  exact ⟨h.1.trans (by decide), h.2.trans (by decide)⟩
